import Mathlib

/-!
Shallow embedding of `src/main.py` (class `PixabayDownloaderAsync`).

The script resolves image URLs from a search API and downloads them
concurrently with `asyncio`/`aiohttp`.  We embed the two async methods
and the constructor as pure Lean functions over explicit environments:

* The network is an explicit parameter.  The search API is a function
  from the request parameters to an `ApiRespuesta`; each image download
  is described by a function from the URL to a `FetchRespuesta`; the
  filesystem outcome of each `open`/`write` call is a function from the
  file name to an `EscrituraResultado`.
* A Python coroutine that raises an uncaught exception is modelled as
  `none`; a coroutine that returns normally is `some` of the value
  describing what it did.  `src/main.py` contains no `try`/`except` at
  all, so every exception propagates.
* File contents (response bodies) are byte lists (`List Nat`); paths are
  component lists (`os.path.join dir name` is `dir ++ [name]`,
  `os.makedirs` creates every ancestor component).
* Console output (`print` calls) is modelled as lists of the printed
  strings.  Per-task prints happen in nondeterministic completion order,
  so they are attached to each task outcome (`mensaje_de`) rather than
  sequenced globally; the deterministic orchestrator-level prints are
  collected in `Corrida.mensajes`.
-/

/-- The JSON body of the search-API response, as far as line 76 of the
source reads it: either it parses and `datos` contains a `hits` array
whose objects each carry a `largeImageURL` string, or parsing fails
(`respuesta.json()` raises). -/
inductive JsonCuerpo where
  | hits (urls : List String)
  | malformed
deriving DecidableEq

/-- What the single `session.get(URL_BASE, params=parametros)` call at
line 73 of the source produces: an HTTP response with a status and a
body, or a transport-level error (DNS, TLS, timeout), which in `aiohttp`
raises an exception. -/
inductive ApiRespuesta where
  | respuesta (status : Nat) (cuerpo : JsonCuerpo)
  | transportError
deriving DecidableEq

/-- The query parameters built at lines 62 to 67 of the source. -/
structure Parametros where
  key : String
  q : String
  image_type : String
  per_page : Nat
deriving DecidableEq

/-- The `parametros` dictionary built at lines 62 to 67 of the source:
the API key, the query, the fixed filter `photo`, and
`per_page = cantidad`. -/
def parametros_busqueda (api_key consulta : String) (cantidad : Nat) : Parametros :=
  { key := api_key, q := consulta, image_type := "photo", per_page := cantidad }

/-- `obtener_urls_imagenes` (lines 45 to 80 of the source), with the
remote API as an explicit environment `api`.  Result `none` models an
uncaught exception (transport error from `session.get`, or a JSON parse
error from `respuesta.json()` on the 200 path); `some (urls, mensajes)`
models a normal return of `urls` having printed `mensajes`.

The source builds `parametros` with `per_page = cantidad` and, on
status 200, returns one URL per object of `datos['hits']` via the list
comprehension at line 76 with no truncation; on any other status it
prints the status and returns the empty list. -/
def obtener_urls_imagenes (api_key consulta : String) (cantidad : Nat)
    (api : Parametros → ApiRespuesta) : Option (List String × List String) :=
  match api (parametros_busqueda api_key consulta cantidad) with
  | .transportError => none
  | .respuesta status cuerpo =>
    if status = 200 then
      match cuerpo with
      | .hits urls => some (urls, [])
      | .malformed => none
    else
      some ([], ["Error en la solicitud a la API: " ++ toString status])

/-- What the `session.get(url)` call at line 95 of the source produces
for one image URL: an HTTP response with a status and a byte body, or a
transport-level error, which in `aiohttp` raises an exception. -/
inductive FetchRespuesta where
  | ok (status : Nat) (contenido : List Nat)
  | transportError
deriving DecidableEq

/-- Whether the `open(ruta, 'wb')` / `archivo.write(contenido)` calls at
lines 99 to 100 of the source succeed or raise an `OSError`. -/
inductive EscrituraResultado where
  | ok
  | ioError
deriving DecidableEq

/-- The per-item download result the specification calls
`DownloadOutcome`: either the task fetched status 200 and wrote the body
to its file, or it saw a non-200 status, printed an error with the file
name and status, and wrote nothing. -/
inductive DownloadOutcome where
  | success (nombre_archivo : String) (contenido : List Nat)
  | failure (nombre_archivo : String) (status : Nat)
deriving DecidableEq

/-- `descargar_imagen` (lines 82 to 103 of the source) for one URL,
given the response `resp` to its GET and the filesystem result
`escritura` of its write.  `none` models an uncaught exception: the
source has no `try`/`except`, so both a transport error from
`session.get` and an `OSError` from `open`/`write` propagate out of the
coroutine.  A normal return yields the outcome of the task. -/
def descargar_imagen (resp : FetchRespuesta) (escritura : EscrituraResultado)
    (nombre_archivo : String) : Option DownloadOutcome :=
  match resp with
  | .transportError => none
  | .ok status contenido =>
    if status = 200 then
      match escritura with
      | .ok => some (.success nombre_archivo contenido)
      | .ioError => none
    else
      some (.failure nombre_archivo status)

/-- The file writes a completed task performed, as paths with contents:
line 98 joins `self.directorio_imagenes` with the file name, lines 99 to
100 write the body there on the 200 path; the non-200 branch writes
nothing. -/
def archivos_escritos (directorio : List String) : DownloadOutcome → List (List String × List Nat)
  | .success nombre contenido => [(directorio ++ [nombre], contenido)]
  | .failure _ _ => []

/-- The console line a completed task printed (lines 101 and 103 of the
source). -/
def mensaje_de : DownloadOutcome → String
  | .success nombre _ => "Descarga completada: " ++ nombre
  | .failure nombre status => "Error descargando " ++ nombre ++ ": " ++ toString status

/-- The file name for the download at 0-based position `i`: the f-string
at line 125 of the source formats `i + 1` between the fixed pieces. -/
def nombre_imagen (i : Nat) : String :=
  "imagen_" ++ toString (i + 1) ++ ".jpg"

/-- The task list built by the comprehension at line 125 of the source:
one `descargar_imagen` coroutine per `(i, url)` of `enumerate(urls)`. -/
def tareas_descarga (urls : List String) (fetch : String → FetchRespuesta)
    (escribir : String → EscrituraResultado) : List (Option DownloadOutcome) :=
  urls.enum.map fun p => descargar_imagen (fetch p.2) (escribir (nombre_imagen p.1)) (nombre_imagen p.1)

/-- `asyncio.gather(*tareas)` with the default `return_exceptions=False`
(line 126 of the source): if every task returns, the awaiting coroutine
gets the list of their results in task order; if any task raises, the
exception is re-raised to the awaiting coroutine (`none`). -/
def gather : List (Option DownloadOutcome) → Option (List DownloadOutcome)
  | [] => some []
  | none :: _ => none
  | some r :: resto => (gather resto).map fun rs => r :: rs

/-- A completed (non-raising) run of `descargar_imagenes_concurrentes`:
the outcome of every launched task, the orchestrator-level console
output, whether the download `ClientSession` of line 124 was entered,
and how many download tasks were launched. -/
structure Corrida where
  resultados : List DownloadOutcome
  mensajes : List String
  sesion_descargas : Bool
  tareas_lanzadas : Nat
deriving DecidableEq

/-- `descargar_imagenes_concurrentes` (lines 105 to 128 of the source).
It awaits `obtener_urls_imagenes` first; an exception there propagates
(`none`).  If the URL list is empty it prints the nothing-to-download
message and returns at once: no download session, no tasks.  Otherwise
it opens a session, builds one task per URL and awaits `gather`; if some
task raised, the exception propagates out of the `async with` (`none`,
and line 128 never prints), else it prints the final message and
returns. -/
def descargar_imagenes_concurrentes (api_key consulta : String) (cantidad : Nat)
    (api : Parametros → ApiRespuesta) (fetch : String → FetchRespuesta)
    (escribir : String → EscrituraResultado) : Option Corrida :=
  match obtener_urls_imagenes api_key consulta cantidad api with
  | none => none
  | some (urls, mensajes_api) =>
    if urls.isEmpty then
      some { resultados := []
             mensajes := mensajes_api ++ ["No se encontraron imágenes para descargar."]
             sesion_descargas := false
             tareas_lanzadas := 0 }
    else
      match gather (tareas_descarga urls fetch escribir) with
      | none => none
      | some resultados =>
        some { resultados := resultados
               mensajes := mensajes_api ++ ["Todas las imágenes han sido descargadas."]
               sesion_descargas := true
               tareas_lanzadas := urls.length }

/-- Every nonempty component-prefix of a path: `os.makedirs` on
`a/b/c` creates (or finds) `a`, `a/b` and `a/b/c`. -/
def prefijos : List String → List (List String)
  | [] => []
  | c :: resto => [c] :: (prefijos resto).map fun p => c :: p

/-- `os.makedirs(directorio, exist_ok=True)` (line 43 of the source) on
a filesystem modelled as the list of existing directory paths: the
directory and all its ancestors exist afterwards, everything that
existed still exists, and with `exist_ok=True` the call never raises, so
the model is a total function. -/
def makedirs (fs : List (List String)) (ruta : List String) : List (List String) :=
  fs ++ prefijos ruta

/-- The state `__init__` stores (lines 41 to 42 of the source). -/
structure PixabayDownloaderAsync where
  api_key : String
  directorio_imagenes : List String
deriving DecidableEq

/-- `PixabayDownloaderAsync.__init__` (lines 30 to 43 of the source):
stores the key and the directory and calls `os.makedirs` on the given
filesystem.  The default for `directorio_imagenes` in the source is the
single component `imagenes_descargadas`.  The constructor takes no
network environment: it performs no HTTP request. -/
def init_downloader (fs : List (List String)) (api_key : String)
    (directorio_imagenes : List String) : PixabayDownloaderAsync × List (List String) :=
  ({ api_key := api_key, directorio_imagenes := directorio_imagenes },
   makedirs fs directorio_imagenes)

/-! ## Helper lemmas -/

/-- A result list returned by `gather` has one entry per task. -/
theorem gather_length (ts : List (Option DownloadOutcome)) :
    ∀ rs, gather ts = some rs → rs.length = ts.length := by
  induction ts with
  | nil =>
    intro rs h
    simp [gather] at h
    simp [← h]
  | cons t resto ih =>
    intro rs h
    cases t with
    | none => simp [gather] at h
    | some r =>
      cases hg : gather resto with
      | none => rw [gather, hg] at h; simp at h
      | some rs2 =>
        rw [gather, hg] at h
        simp at h
        simp [← h, ih rs2 hg]

/-- If no task raises, `gather` returns one result per task. -/
theorem gather_total (ts : List (Option DownloadOutcome))
    (h : ∀ t ∈ ts, t ≠ none) :
    ∃ rs, gather ts = some rs ∧ rs.length = ts.length := by
  induction ts with
  | nil => exact ⟨[], rfl, rfl⟩
  | cons t resto ih =>
    obtain ⟨rs, hrs, hlen⟩ := ih fun t ht => h t (List.mem_cons_of_mem _ ht)
    cases t with
    | none => exact absurd rfl (h none (List.mem_cons_self _ _))
    | some r => exact ⟨r :: rs, by simp [gather, hrs], by simp [hlen]⟩

/-- If some task raises, the exception propagates out of `gather`. -/
theorem gather_none (ts : List (Option DownloadOutcome)) (h : none ∈ ts) :
    gather ts = none := by
  induction ts with
  | nil => cases h
  | cons t resto ih =>
    cases t with
    | none => rfl
    | some r =>
      have hr : none ∈ resto := by
        rcases List.mem_cons.mp h with h0 | h0
        · exact absurd h0.symm (by simp)
        · exact h0
      simp [gather, ih hr]

/-- A task whose GET succeeded and whose write succeeded returns the
outcome that its own status determines. -/
theorem descargar_imagen_ok_escritura (status : Nat) (contenido : List Nat)
    (nombre : String) :
    descargar_imagen (.ok status contenido) .ok nombre
      = some (if status = 200 then .success nombre contenido
              else .failure nombre status) := by
  by_cases h : status = 200 <;> simp [descargar_imagen, h]

/-- `gather` over tasks none of which raises. -/
theorem gather_map_some (l : List (Nat × String)) (g : Nat × String → DownloadOutcome) :
    gather (l.map fun p => some (g p)) = some (l.map g) := by
  induction l with
  | nil => rfl
  | cons q resto ih => simp [gather, ih]

/-- `gather` over tasks that all received an HTTP response and whose
writes succeed: one outcome per task, each fixed by its own status. -/
theorem gather_tareas_ok (l : List (Nat × String)) (status : String → Nat)
    (contenido : String → List Nat) :
    gather (l.map fun p =>
        descargar_imagen (.ok (status p.2) (contenido p.2)) .ok (nombre_imagen p.1))
      = some (l.map fun p =>
          if status p.2 = 200 then DownloadOutcome.success (nombre_imagen p.1) (contenido p.2)
          else DownloadOutcome.failure (nombre_imagen p.1) (status p.2)) := by
  have h : (fun p : Nat × String =>
        descargar_imagen (.ok (status p.2) (contenido p.2)) .ok (nombre_imagen p.1))
      = fun p : Nat × String =>
          some (if status p.2 = 200 then DownloadOutcome.success (nombre_imagen p.1) (contenido p.2)
                else DownloadOutcome.failure (nombre_imagen p.1) (status p.2)) :=
    funext fun p => descargar_imagen_ok_escritura (status p.2) (contenido p.2) (nombre_imagen p.1)
  rw [h]
  exact gather_map_some l _

/-- Unfolding `descargar_imagenes_concurrentes` when the resolver
answers 200 with a nonempty `hits` array. -/
theorem run_con_urls (api_key consulta : String) (cantidad : Nat)
    (urls : List String) (hne : urls ≠ [])
    (fetch : String → FetchRespuesta) (escribir : String → EscrituraResultado) :
    descargar_imagenes_concurrentes api_key consulta cantidad
        (fun _ => .respuesta 200 (.hits urls)) fetch escribir
      = match gather (tareas_descarga urls fetch escribir) with
        | none => none
        | some resultados =>
          some { resultados := resultados
                 mensajes := ["Todas las imágenes han sido descargadas."]
                 sesion_descargas := true
                 tareas_lanzadas := urls.length } := by
  cases urls with
  | nil => exact absurd rfl hne
  | cons u resto => rfl

/-- The task built for the pair `(i, url)` of `enumerate(urls)` is in
the task list. -/
theorem tarea_en_tareas (urls : List String) (fetch : String → FetchRespuesta)
    (escribir : String → EscrituraResultado) (i : Nat) (url : String)
    (hmem : (i, url) ∈ urls.enum) :
    descargar_imagen (fetch url) (escribir (nombre_imagen i)) (nombre_imagen i)
      ∈ tareas_descarga urls fetch escribir := by
  have h := List.mem_map_of_mem
    (fun p : Nat × String =>
      descargar_imagen (fetch p.2) (escribir (nombre_imagen p.1)) (nombre_imagen p.1)) hmem
  simpa [tareas_descarga] using h

/-- If some launched task raises, the whole batch call raises. -/
theorem run_aborta (api_key consulta : String) (cantidad : Nat)
    (urls : List String) (hne : urls ≠ [])
    (fetch : String → FetchRespuesta) (escribir : String → EscrituraResultado)
    (hnone : none ∈ tareas_descarga urls fetch escribir) :
    descargar_imagenes_concurrentes api_key consulta cantidad
        (fun _ => .respuesta 200 (.hits urls)) fetch escribir = none := by
  rw [run_con_urls api_key consulta cantidad urls hne fetch escribir,
    gather_none _ hnone]

/-- A nonempty path is one of its own makedirs components. -/
theorem mem_prefijos_self (ruta : List String) (h : ruta ≠ []) :
    ruta ∈ prefijos ruta := by
  induction ruta with
  | nil => exact absurd rfl h
  | cons c resto ih =>
    cases resto with
    | nil => simp [prefijos]
    | cons d r =>
      have hm : (d :: r) ∈ prefijos (d :: r) := ih (by simp)
      exact List.mem_cons_of_mem _ (List.mem_map_of_mem _ hm)

/-! ## Claims -/

/-- C3, counterexample: with `cantidad = 1`, a 200 response whose `hits`
array holds two objects makes `obtener_urls_imagenes` return two URLs —
more than the desired count.  The source never truncates `hits`; it only
sends `per_page` in the request. -/
theorem limite_cantidad_cx :
    obtener_urls_imagenes "clave" "gatos" 1
        (fun _ => ApiRespuesta.respuesta 200 (JsonCuerpo.hits ["u1", "u2"]))
      = some (["u1", "u2"], []) ∧
    1 < (["u1", "u2"] : List String).length :=
  ⟨rfl, by decide⟩

/-- C3, amended: on a 200 response the resolver returns exactly one URL
per object of the `hits` array, in the response order; the returned list
has at most `cantidad` entries provided the response honours the
`per_page = cantidad` request parameter, that is, carries at most
`cantidad` hits. -/
theorem limite_cantidad (api_key consulta : String) (cantidad : Nat)
    (api : Parametros → ApiRespuesta) (urls : List String)
    (hresp : api (parametros_busqueda api_key consulta cantidad)
      = .respuesta 200 (.hits urls))
    (hbound : urls.length ≤ cantidad) :
    obtener_urls_imagenes api_key consulta cantidad api = some (urls, []) ∧
    urls.length ≤ cantidad := by
  refine ⟨?_, hbound⟩
  unfold obtener_urls_imagenes
  rw [hresp]
  rfl

/-- C3 witness: the amended claim at a concrete input. -/
theorem limite_cantidad_witness :
    obtener_urls_imagenes "clave" "gatos" 3
        (fun _ => ApiRespuesta.respuesta 200 (JsonCuerpo.hits ["a", "b"]))
      = some (["a", "b"], []) ∧
    (["a", "b"] : List String).length ≤ 3 :=
  limite_cantidad "clave" "gatos" 3
    (fun _ => ApiRespuesta.respuesta 200 (JsonCuerpo.hits ["a", "b"]))
    ["a", "b"] rfl (by decide)

/-- C4: when the resolver returns an empty URL list, the fetch stage
launches zero download tasks, enters no download session, prints the
nothing-to-download message and returns at once with an empty outcome
sequence. -/
theorem sin_urls (api_key consulta : String) (cantidad : Nat)
    (api : Parametros → ApiRespuesta) (fetch : String → FetchRespuesta)
    (escribir : String → EscrituraResultado) (mensajes : List String)
    (hres : obtener_urls_imagenes api_key consulta cantidad api = some ([], mensajes)) :
    descargar_imagenes_concurrentes api_key consulta cantidad api fetch escribir
      = some { resultados := []
               mensajes := mensajes ++ ["No se encontraron imágenes para descargar."]
               sesion_descargas := false
               tareas_lanzadas := 0 } := by
  unfold descargar_imagenes_concurrentes
  rw [hres]
  rfl

/-- C4 witness: the empty-hits scenario at a concrete input. -/
theorem sin_urls_witness :
    descargar_imagenes_concurrentes "clave" "zzzznotfound" 3
        (fun _ => ApiRespuesta.respuesta 200 (JsonCuerpo.hits []))
        (fun _ => FetchRespuesta.transportError) (fun _ => EscrituraResultado.ok)
      = some { resultados := []
               mensajes := ["No se encontraron imágenes para descargar."]
               sesion_descargas := false
               tareas_lanzadas := 0 } := by
  have h := sin_urls "clave" "zzzznotfound" 3
    (fun _ => ApiRespuesta.respuesta 200 (JsonCuerpo.hits []))
    (fun _ => FetchRespuesta.transportError) (fun _ => EscrituraResultado.ok) [] rfl
  simpa using h

/-- C6: a transport error contacting the search API, or a JSON parse
error of the 200 body, is an uncaught exception: the resolver raises
(returning no list at all, so no partial sequence), and the whole run
raises with it. -/
theorem resolucion_fatal (api_key consulta : String) (cantidad : Nat)
    (api : Parametros → ApiRespuesta) (fetch : String → FetchRespuesta)
    (escribir : String → EscrituraResultado)
    (h : api (parametros_busqueda api_key consulta cantidad) = .transportError ∨
         api (parametros_busqueda api_key consulta cantidad) = .respuesta 200 .malformed) :
    obtener_urls_imagenes api_key consulta cantidad api = none ∧
    descargar_imagenes_concurrentes api_key consulta cantidad api fetch escribir = none := by
  have h1 : obtener_urls_imagenes api_key consulta cantidad api = none := by
    unfold obtener_urls_imagenes
    rcases h with h | h <;> rw [h]
    rfl
  refine ⟨h1, ?_⟩
  unfold descargar_imagenes_concurrentes
  rw [h1]

/-- C6 witness: a transport error at a concrete input. -/
theorem resolucion_fatal_witness :
    obtener_urls_imagenes "clave" "gatos" 5 (fun _ => ApiRespuesta.transportError) = none ∧
    descargar_imagenes_concurrentes "clave" "gatos" 5 (fun _ => ApiRespuesta.transportError)
      (fun _ => FetchRespuesta.ok 200 []) (fun _ => EscrituraResultado.ok) = none :=
  resolucion_fatal "clave" "gatos" 5 (fun _ => ApiRespuesta.transportError)
    (fun _ => FetchRespuesta.ok 200 []) (fun _ => EscrituraResultado.ok) (Or.inl rfl)

/-- C7: on any non-200 status from the search API the resolver prints
the status code and returns the empty list without raising, and the
whole run then completes without raising (ending in the
nothing-to-download branch). -/
theorem resolucion_suave (api_key consulta : String) (cantidad : Nat)
    (api : Parametros → ApiRespuesta) (status : Nat) (cuerpo : JsonCuerpo)
    (fetch : String → FetchRespuesta) (escribir : String → EscrituraResultado)
    (hresp : api (parametros_busqueda api_key consulta cantidad) = .respuesta status cuerpo)
    (hst : status ≠ 200) :
    obtener_urls_imagenes api_key consulta cantidad api
      = some ([], ["Error en la solicitud a la API: " ++ toString status]) ∧
    descargar_imagenes_concurrentes api_key consulta cantidad api fetch escribir
      = some { resultados := []
               mensajes := ["Error en la solicitud a la API: " ++ toString status,
                            "No se encontraron imágenes para descargar."]
               sesion_descargas := false
               tareas_lanzadas := 0 } := by
  have h1 : obtener_urls_imagenes api_key consulta cantidad api
      = some ([], ["Error en la solicitud a la API: " ++ toString status]) := by
    unfold obtener_urls_imagenes
    rw [hresp]
    simp [hst]
  refine ⟨h1, ?_⟩
  unfold descargar_imagenes_concurrentes
  rw [h1]
  rfl

/-- C7 witness: the 403 scenario at a concrete input. -/
theorem resolucion_suave_witness :
    obtener_urls_imagenes "clave" "gatos" 5
        (fun _ => ApiRespuesta.respuesta 403 (JsonCuerpo.hits ["u"]))
      = some ([], ["Error en la solicitud a la API: 403"]) ∧
    descargar_imagenes_concurrentes "clave" "gatos" 5
        (fun _ => ApiRespuesta.respuesta 403 (JsonCuerpo.hits ["u"]))
        (fun _ => FetchRespuesta.ok 200 []) (fun _ => EscrituraResultado.ok)
      = some { resultados := []
               mensajes := ["Error en la solicitud a la API: 403",
                            "No se encontraron imágenes para descargar."]
               sesion_descargas := false
               tareas_lanzadas := 0 } := by
  have h := resolucion_suave "clave" "gatos" 5
    (fun _ => ApiRespuesta.respuesta 403 (JsonCuerpo.hits ["u"])) 403 (JsonCuerpo.hits ["u"])
    (fun _ => FetchRespuesta.ok 200 []) (fun _ => EscrituraResultado.ok) rfl (by decide)
  simpa using h

/-- C8: a download task whose response has a non-200 status returns a
Failure outcome carrying its file name and the status code, writes no
file (its write list is empty), and prints the per-item error line. -/
theorem descarga_no_200 (status : Nat) (contenido : List Nat)
    (escritura : EscrituraResultado) (nombre : String) (directorio : List String)
    (hst : status ≠ 200) :
    descargar_imagen (.ok status contenido) escritura nombre
      = some (.failure nombre status) ∧
    archivos_escritos directorio (.failure nombre status) = [] ∧
    mensaje_de (.failure nombre status)
      = "Error descargando " ++ nombre ++ ": " ++ toString status := by
  refine ⟨?_, rfl, rfl⟩
  simp [descargar_imagen, hst]

/-- C8 witness: a 404 response at a concrete input. -/
theorem descarga_no_200_witness :
    descargar_imagen (.ok 404 [1, 2]) EscrituraResultado.ok "imagen_3.jpg"
      = some (.failure "imagen_3.jpg" 404) ∧
    archivos_escritos ["imagenes_descargadas"] (.failure "imagen_3.jpg" 404) = [] ∧
    mensaje_de (.failure "imagen_3.jpg" 404)
      = "Error descargando " ++ "imagen_3.jpg" ++ ": " ++ toString 404 :=
  descarga_no_200 404 [1, 2] EscrituraResultado.ok "imagen_3.jpg"
    ["imagenes_descargadas"] (by decide)

/-- C10: the constructor stores its arguments and creates the output
directory with all its ancestors (`exist_ok=True`: the model of
`os.makedirs` is total, so an existing directory raises nothing and
everything that existed is preserved).  The constructor takes no network
environment, so the directory exists after construction no matter what
any later resolution or download does. -/
theorem init_crea_directorio (fs : List (List String)) (api_key : String)
    (directorio : List String) (hne : directorio ≠ []) :
    (init_downloader fs api_key directorio).1
      = { api_key := api_key, directorio_imagenes := directorio } ∧
    directorio ∈ (init_downloader fs api_key directorio).2 ∧
    (∀ p ∈ prefijos directorio, p ∈ (init_downloader fs api_key directorio).2) ∧
    (∀ p ∈ fs, p ∈ (init_downloader fs api_key directorio).2) := by
  refine ⟨rfl, ?_, ?_, ?_⟩
  · exact List.mem_append_right _ (mem_prefijos_self directorio hne)
  · intro p hp
    exact List.mem_append_right _ hp
  · intro p hp
    exact List.mem_append_left _ hp

/-- C10 witness: the default directory on an empty filesystem. -/
theorem init_crea_directorio_witness :
    (init_downloader [] "clave" ["imagenes_descargadas"]).1
      = { api_key := "clave", directorio_imagenes := ["imagenes_descargadas"] } ∧
    ["imagenes_descargadas"] ∈ (init_downloader [] "clave" ["imagenes_descargadas"]).2 ∧
    (∀ p ∈ prefijos ["imagenes_descargadas"],
      p ∈ (init_downloader [] "clave" ["imagenes_descargadas"]).2) ∧
    (∀ p ∈ ([] : List (List String)),
      p ∈ (init_downloader [] "clave" ["imagenes_descargadas"]).2) :=
  init_crea_directorio [] "clave" ["imagenes_descargadas"] (by decide)

/-- C1, counterexample: a transport error in a download task is not
caught anywhere — the task yields no Failure outcome (it raises), and
with two resolved URLs of which the first hits a transport error, the
whole batch call raises even though the second URL answers 200. -/
theorem aislamiento_cx :
    descargar_imagen FetchRespuesta.transportError EscrituraResultado.ok "imagen_1.jpg"
      = none ∧
    descargar_imagenes_concurrentes "clave" "gatos" 2
        (fun _ => ApiRespuesta.respuesta 200 (JsonCuerpo.hits ["u1", "u2"]))
        (fun u => if u = "u1" then FetchRespuesta.transportError
                  else FetchRespuesta.ok 200 [9])
        (fun _ => EscrituraResultado.ok)
      = none :=
  ⟨rfl, rfl⟩

/-- C1, amended: isolation holds for HTTP-level failures — when every
task receives an HTTP response and every write succeeds, the batch
completes and each task's outcome is fixed by its own status alone (200
gives Success, anything else gives Failure), so one task's non-200 never
flips a sibling; but a transport-level error in any one task is not
caught: it propagates through `asyncio.gather` and the whole batch call
raises. -/
theorem aislamiento (api_key consulta : String) (cantidad : Nat) (urls : List String)
    (hne : urls ≠ []) (status : String → Nat) (contenido : String → List Nat)
    (fetchT : String → FetchRespuesta) (escribir : String → EscrituraResultado)
    (u : String) (hu : u ∈ urls) (hT : fetchT u = .transportError) :
    (∃ corrida,
      descargar_imagenes_concurrentes api_key consulta cantidad
          (fun _ => .respuesta 200 (.hits urls))
          (fun url => .ok (status url) (contenido url)) (fun _ => .ok)
        = some corrida ∧
      corrida.resultados = urls.enum.map fun p =>
        if status p.2 = 200 then DownloadOutcome.success (nombre_imagen p.1) (contenido p.2)
        else DownloadOutcome.failure (nombre_imagen p.1) (status p.2)) ∧
    descargar_imagenes_concurrentes api_key consulta cantidad
        (fun _ => .respuesta 200 (.hits urls)) fetchT escribir = none := by
  constructor
  · have hg : gather (tareas_descarga urls
          (fun url => .ok (status url) (contenido url)) (fun _ => .ok))
        = some (urls.enum.map fun p =>
            if status p.2 = 200 then DownloadOutcome.success (nombre_imagen p.1) (contenido p.2)
            else DownloadOutcome.failure (nombre_imagen p.1) (status p.2)) := by
      simpa [tareas_descarga] using gather_tareas_ok urls.enum status contenido
    rw [run_con_urls api_key consulta cantidad urls hne _ _, hg]
    exact ⟨_, rfl, rfl⟩
  · have h2 : u ∈ urls.enum.map Prod.snd := by
      rw [List.enum_map_snd]
      exact hu
    obtain ⟨p, hp, hpu⟩ := List.mem_map.mp h2
    obtain ⟨i, v⟩ := p
    cases hpu
    have h1 := tarea_en_tareas urls fetchT escribir i v hp
    rw [hT] at h1
    have h3 : (none : Option DownloadOutcome) ∈ tareas_descarga urls fetchT escribir := by
      simpa [descargar_imagen] using h1
    exact run_aborta api_key consulta cantidad urls hne fetchT escribir h3

/-- C1 witness: three URLs, the middle one answering 404, the siblings
200 — the batch completes with Success, Failure, Success; and a run in
which the first URL hits a transport error raises. -/
theorem aislamiento_witness :
    (∃ corrida,
      descargar_imagenes_concurrentes "clave" "gatos" 3
          (fun _ => ApiRespuesta.respuesta 200 (JsonCuerpo.hits ["u1", "u2", "u3"]))
          (fun url => FetchRespuesta.ok (if url = "u2" then 404 else 200) [9])
          (fun _ => EscrituraResultado.ok)
        = some corrida ∧
      corrida.resultados =
        [DownloadOutcome.success "imagen_1.jpg" [9],
         DownloadOutcome.failure "imagen_2.jpg" 404,
         DownloadOutcome.success "imagen_3.jpg" [9]]) ∧
    descargar_imagenes_concurrentes "clave" "gatos" 3
        (fun _ => ApiRespuesta.respuesta 200 (JsonCuerpo.hits ["u1", "u2", "u3"]))
        (fun u => if u = "u1" then FetchRespuesta.transportError
                  else FetchRespuesta.ok 200 [9])
        (fun _ => EscrituraResultado.ok)
      = none := by
  have h := aislamiento "clave" "gatos" 3 ["u1", "u2", "u3"] (by decide)
    (fun url => if url = "u2" then 404 else 200) (fun _ => [9])
    (fun u => if u = "u1" then FetchRespuesta.transportError
              else FetchRespuesta.ok 200 [9])
    (fun _ => EscrituraResultado.ok) "u1" (by decide) rfl
  obtain ⟨⟨corrida, hc, hres⟩, habort⟩ := h
  refine ⟨⟨corrida, hc, ?_⟩, habort⟩
  rw [hres]
  rfl

/-- C2, counterexample: one resolved URL whose download hits a
transport error — `descargar_imagenes_concurrentes` raises instead of
returning an outcome sequence, although one task was launched; so the
return value does not always hold one outcome per launched task. -/
theorem barrera_cx :
    descargar_imagenes_concurrentes "clave" "gatos" 5
        (fun _ => ApiRespuesta.respuesta 200 (JsonCuerpo.hits ["u1"]))
        (fun _ => FetchRespuesta.transportError) (fun _ => EscrituraResultado.ok)
      = none :=
  rfl

/-- C2, amended: when every launched task terminates without raising,
the batch call returns (only after gathering every task) a `Corrida`
holding exactly one outcome per launched task; when some task raises,
`asyncio.gather` re-raises and no outcome sequence is returned. -/
theorem barrera (api_key consulta : String) (cantidad : Nat) (urls : List String)
    (hne : urls ≠ []) (fetch : String → FetchRespuesta)
    (escribir : String → EscrituraResultado)
    (hok : ∀ t ∈ tareas_descarga urls fetch escribir, t ≠ none) :
    ∃ corrida,
      descargar_imagenes_concurrentes api_key consulta cantidad
          (fun _ => .respuesta 200 (.hits urls)) fetch escribir = some corrida ∧
      corrida.resultados.length = urls.length ∧
      corrida.tareas_lanzadas = urls.length := by
  obtain ⟨rs, hrs, hlen⟩ := gather_total _ hok
  rw [run_con_urls api_key consulta cantidad urls hne fetch escribir, hrs]
  refine ⟨_, rfl, ?_, rfl⟩
  show rs.length = urls.length
  rw [hlen]
  simp [tareas_descarga, List.enum_length]

/-- C2 witness: two URLs, one 200 and one 404, no exception — the
returned run has two outcomes for two launched tasks. -/
theorem barrera_witness :
    ∃ corrida,
      descargar_imagenes_concurrentes "clave" "gatos" 2
          (fun _ => ApiRespuesta.respuesta 200 (JsonCuerpo.hits ["u1", "u2"]))
          (fun url => FetchRespuesta.ok (if url = "u1" then 200 else 404) [9])
          (fun _ => EscrituraResultado.ok) = some corrida ∧
      corrida.resultados.length = (["u1", "u2"] : List String).length ∧
      corrida.tareas_lanzadas = (["u1", "u2"] : List String).length :=
  barrera "clave" "gatos" 2 ["u1", "u2"] (by decide)
    (fun url => FetchRespuesta.ok (if url = "u1" then 200 else 404) [9])
    (fun _ => EscrituraResultado.ok) (by decide)

/-- C5: the task for the reference at 0-based position `i` carries the
file name `imagen_` then `i + 1` then `.jpg`; on success it writes
exactly one file, at that name inside the output directory, with the
fetched bytes.  The name is a function of the position alone, so the
model (which has no completion order) gives the same name on any rerun
with the same resolver output. -/
theorem nombres_deterministas (directorio : List String) (urls : List String)
    (fetch : String → FetchRespuesta) (escribir : String → EscrituraResultado)
    (i : Nat) (url : String) (contenido : List Nat)
    (hurl : urls[i]? = some url)
    (hfetch : fetch url = .ok 200 contenido)
    (hesc : escribir (nombre_imagen i) = .ok) :
    (tareas_descarga urls fetch escribir)[i]?
      = some (some (.success (nombre_imagen i) contenido)) ∧
    archivos_escritos directorio (.success (nombre_imagen i) contenido)
      = [(directorio ++ ["imagen_" ++ toString (i + 1) ++ ".jpg"], contenido)] ∧
    nombre_imagen i = "imagen_" ++ toString (i + 1) ++ ".jpg" := by
  refine ⟨?_, rfl, rfl⟩
  simp [tareas_descarga, List.getElem?_map, List.getElem?_enum, hurl, hfetch, hesc,
    descargar_imagen]

/-- C5 witness: position 1 of two references writes `imagen_2.jpg`. -/
theorem nombres_deterministas_witness :
    (tareas_descarga ["a", "b"] (fun _ => FetchRespuesta.ok 200 [5])
        (fun _ => EscrituraResultado.ok))[1]?
      = some (some (.success (nombre_imagen 1) [5])) ∧
    archivos_escritos ["imagenes_descargadas"] (.success (nombre_imagen 1) [5])
      = [(["imagenes_descargadas"] ++ ["imagen_" ++ toString (1 + 1) ++ ".jpg"], [5])] ∧
    nombre_imagen 1 = "imagen_" ++ toString (1 + 1) ++ ".jpg" :=
  nombres_deterministas ["imagenes_descargadas"] ["a", "b"]
    (fun _ => FetchRespuesta.ok 200 [5]) (fun _ => EscrituraResultado.ok)
    1 "b" [5] rfl rfl rfl

/-- C9, counterexample: an `OSError` while writing is not caught — the
task yields no Failure outcome (it raises), and with one resolved URL
whose write fails, the whole batch call raises. -/
theorem fallo_escritura_cx :
    descargar_imagen (FetchRespuesta.ok 200 [7, 7]) EscrituraResultado.ioError "imagen_1.jpg"
      = none ∧
    descargar_imagenes_concurrentes "clave" "gatos" 1
        (fun _ => ApiRespuesta.respuesta 200 (JsonCuerpo.hits ["w1"]))
        (fun _ => FetchRespuesta.ok 200 [7, 7]) (fun _ => EscrituraResultado.ioError)
      = none :=
  ⟨rfl, rfl⟩

/-- C9, amended: a filesystem failure while writing one item is not
converted into a per-item Failure outcome; the exception propagates out
of the task and `asyncio.gather` re-raises it, so the whole batch call
raises and no outcome sequence is produced. -/
theorem fallo_escritura (api_key consulta : String) (cantidad : Nat) (urls : List String)
    (hne : urls ≠ []) (fetch : String → FetchRespuesta)
    (escribir : String → EscrituraResultado)
    (i : Nat) (url : String) (contenido : List Nat)
    (hmem : (i, url) ∈ urls.enum)
    (hfetch : fetch url = .ok 200 contenido)
    (hesc : escribir (nombre_imagen i) = .ioError) :
    descargar_imagen (fetch url) (escribir (nombre_imagen i)) (nombre_imagen i) = none ∧
    descargar_imagenes_concurrentes api_key consulta cantidad
        (fun _ => .respuesta 200 (.hits urls)) fetch escribir = none := by
  have htask : descargar_imagen (fetch url) (escribir (nombre_imagen i))
      (nombre_imagen i) = none := by
    rw [hfetch, hesc]
    rfl
  refine ⟨htask, ?_⟩
  have hmem2 := tarea_en_tareas urls fetch escribir i url hmem
  rw [htask] at hmem2
  exact run_aborta api_key consulta cantidad urls hne fetch escribir hmem2

/-- C9 witness: two URLs, the write of the first failing — the batch
call raises. -/
theorem fallo_escritura_witness :
    descargar_imagen ((fun _ : String => FetchRespuesta.ok 200 [3]) "a")
        ((fun _ : String => EscrituraResultado.ioError) (nombre_imagen 0)) (nombre_imagen 0)
      = none ∧
    descargar_imagenes_concurrentes "clave" "gatos" 2
        (fun _ => ApiRespuesta.respuesta 200 (JsonCuerpo.hits ["a", "b"]))
        (fun _ => FetchRespuesta.ok 200 [3]) (fun _ => EscrituraResultado.ioError)
      = none :=
  fallo_escritura "clave" "gatos" 2 ["a", "b"] (by decide)
    (fun _ => FetchRespuesta.ok 200 [3]) (fun _ => EscrituraResultado.ioError)
    0 "a" [3] (by decide) rfl rfl
